import Mathlib

/-!
Verification of the playground UI gateway (src/ui/src/main.rs,
src/ui/src/iron_web_server.rs, src/ui/src/tower_web_server.rs).

The Rust source is shallowly embedded: wire request structs become Lean
structures, the parse functions and conversion impls become Lean functions
over `Except`, the per-slot metadata cache becomes explicit state passing,
and the precompressed asset resolver becomes a pure function over an
abstract filesystem. External collaborators (serde serialization, mime
guessing, the sandbox itself) are passed in as function or value
parameters, exactly where the source calls out to them.
-/

namespace Playground

/-- Assembly flavor for the compile target (sandbox enum used in main.rs). -/
inductive AssemblyFlavor
  | att
  | intel
deriving DecidableEq, Repr

/-- Demangling option for the compile target (sandbox enum used in main.rs). -/
inductive DemangleAssembly
  | demangle
  | mangle
deriving DecidableEq, Repr

/-- Assembly post-processing option (sandbox enum used in main.rs). -/
inductive ProcessAssembly
  | filter
  | raw
deriving DecidableEq, Repr

/-- sandbox::CompileTarget: Assembly carries flavor, demangle and process. -/
inductive CompileTarget
  | assembly (flavor : AssemblyFlavor) (demangling : DemangleAssembly)
      (process : ProcessAssembly)
  | llvmIr
  | mir
  | wasm
deriving DecidableEq, Repr

/-- sandbox::Channel. -/
inductive Channel
  | stable
  | beta
  | nightly
deriving DecidableEq, Repr

/-- sandbox::Mode. -/
inductive Mode
  | debug
  | release
deriving DecidableEq, Repr

/-- sandbox::Edition. -/
inductive Edition
  | rust2015
  | rust2018
deriving DecidableEq, Repr

/-- sandbox::LibraryType (the proc-macro variant is named procMacroLib
here, ProcMacro in the source). -/
inductive LibraryType
  | lib
  | dylib
  | rlib
  | staticlib
  | cdylib
  | procMacroLib
deriving DecidableEq, Repr

/-- sandbox::CrateType. -/
inductive CrateType
  | binary
  | library (kind : LibraryType)
deriving DecidableEq, Repr

/-- The UI error enum (quick_error! block in main.rs). Inner error types
coming from external crates (sandbox::Error, serde_json::Error,
bodyparser::BodyError) are modelled by their display strings. -/
inductive Error
  | sandbox (err : String)
  | serialization (err : String)
  | deserialization (err : String)
  | invalidTarget (value : String)
  | invalidAssemblyFlavor (value : String)
  | invalidDemangleAssembly (value : String)
  | invalidProcessAssembly (value : String)
  | invalidChannel (value : String)
  | invalidMode (value : String)
  | invalidEdition (value : String)
  | invalidCrateType (value : String)
  | requestMissing
  | cachePoisoned
deriving DecidableEq, Repr

/-- Rust Debug escaping of a character inside a string literal, covering
the escapes relevant to the error messages. -/
def rustDebugChar (c : Char) : String :=
  if c = '\\' then "\\\\"
  else if c = '"' then "\\\""
  else if c = '\n' then "\\n"
  else if c = '\t' then "\\t"
  else if c = '\r' then "\\r"
  else String.singleton c

/-- Rust `{:?}` rendering of a string: quoted and escaped. -/
def rustDebugString (s : String) : String :=
  "\"" ++ String.join (s.toList.map rustDebugChar) ++ "\""

/-- The display strings of the quick_error! block in main.rs. -/
def errorDisplay : Error → String
  | .sandbox err => "Sandbox operation failed: " ++ err
  | .serialization err => "Unable to serialize response: " ++ err
  | .deserialization err => "Unable to deserialize request: " ++ err
  | .invalidTarget v => "The value " ++ rustDebugString v ++ " is not a valid target"
  | .invalidAssemblyFlavor v =>
      "The value " ++ rustDebugString v ++ " is not a valid assembly flavor"
  | .invalidDemangleAssembly v =>
      "The value " ++ rustDebugString v ++ " is not a valid demangle option"
  | .invalidProcessAssembly v =>
      "The value " ++ rustDebugString v ++ " is not a valid assembly processing option"
  | .invalidChannel v => "The value " ++ rustDebugString v ++ " is not a valid channel"
  | .invalidMode v => "The value " ++ rustDebugString v ++ " is not a valid mode"
  | .invalidEdition v => "The value " ++ rustDebugString v ++ " is not a valid edition"
  | .invalidCrateType v => "The value " ++ rustDebugString v ++ " is not a valid crate type"
  | .requestMissing => "No request was provided"
  | .cachePoisoned => "The cache has been poisoned"

/-- fn parse_target (main.rs). -/
def parse_target (s : String) : Except Error CompileTarget :=
  match s with
  | "asm" => .ok (.assembly .att .demangle .filter)
  | "llvm-ir" => .ok .llvmIr
  | "mir" => .ok .mir
  | "wasm" => .ok .wasm
  | _ => .error (.invalidTarget s)

/-- fn parse_assembly_flavor (main.rs). -/
def parse_assembly_flavor (s : String) : Except Error AssemblyFlavor :=
  match s with
  | "att" => .ok .att
  | "intel" => .ok .intel
  | _ => .error (.invalidAssemblyFlavor s)

/-- fn parse_demangle_assembly (main.rs). -/
def parse_demangle_assembly (s : String) : Except Error DemangleAssembly :=
  match s with
  | "demangle" => .ok .demangle
  | "mangle" => .ok .mangle
  | _ => .error (.invalidDemangleAssembly s)

/-- fn parse_process_assembly (main.rs). -/
def parse_process_assembly (s : String) : Except Error ProcessAssembly :=
  match s with
  | "filter" => .ok .filter
  | "raw" => .ok .raw
  | _ => .error (.invalidProcessAssembly s)

/-- fn parse_channel (main.rs). -/
def parse_channel (s : String) : Except Error Channel :=
  match s with
  | "stable" => .ok .stable
  | "beta" => .ok .beta
  | "nightly" => .ok .nightly
  | _ => .error (.invalidChannel s)

/-- fn parse_mode (main.rs). -/
def parse_mode (s : String) : Except Error Mode :=
  match s with
  | "debug" => .ok .debug
  | "release" => .ok .release
  | _ => .error (.invalidMode s)

/-- fn parse_edition (main.rs). -/
def parse_edition (s : String) : Except Error (Option Edition) :=
  match s with
  | "" => .ok none
  | "2015" => .ok (some .rust2015)
  | "2018" => .ok (some .rust2018)
  | _ => .error (.invalidEdition s)

/-- fn parse_crate_type (main.rs). -/
def parse_crate_type (s : String) : Except Error CrateType :=
  match s with
  | "bin" => .ok .binary
  | "lib" => .ok (.library .lib)
  | "dylib" => .ok (.library .dylib)
  | "rlib" => .ok (.library .rlib)
  | "staticlib" => .ok (.library .staticlib)
  | "cdylib" => .ok (.library .cdylib)
  | "proc-macro" => .ok (.library .procMacroLib)
  | _ => .error (.invalidCrateType s)

/-- Wire struct CompileRequest (main.rs): the three assembly sub-fields are
optional, edition defaults to the empty string when absent. -/
structure CompileRequest where
  target : String
  assembly_flavor : Option String
  demangle_assembly : Option String
  process_assembly : Option String
  channel : String
  mode : String
  edition : String
  crate_type : String
  tests : Bool
  backtrace : Bool
  code : String
deriving DecidableEq, Repr

/-- Validated sandbox::CompileRequest as constructed in main.rs. -/
structure SandboxCompileRequest where
  target : CompileTarget
  channel : Channel
  mode : Mode
  edition : Option Edition
  crate_type : CrateType
  tests : Bool
  backtrace : Bool
  code : String
deriving DecidableEq, Repr

/-- Validated sandbox::ExecuteRequest as constructed in main.rs. -/
structure SandboxExecuteRequest where
  channel : Channel
  mode : Mode
  edition : Option Edition
  crate_type : CrateType
  tests : Bool
  backtrace : Bool
  code : String
deriving DecidableEq, Repr

/-- The pattern used three times in TryFrom for the compile request:
match field { Some(f) => Some(parse(f)?), None => None }. -/
def parseOptField {α : Type} (p : String → Except Error α) :
    Option String → Except Error (Option α)
  | some f => (p f).map some
  | none => .ok none

/-- The let target = match (target, assembly_flavor, demangle,
process_assembly) step of TryFrom for the compile request: an
all-or-nothing override of the Assembly parameters. -/
def mergeAssemblyTarget (target : CompileTarget)
    (assembly_flavor : Option AssemblyFlavor)
    (demangled : Option DemangleAssembly)
    (process_assembly : Option ProcessAssembly) : CompileTarget :=
  match target, assembly_flavor, demangled, process_assembly with
  | .assembly _ _ _, some flavor, some d, some process =>
      .assembly flavor d process
  | _, _, _, _ => target

/-- impl TryFrom of the wire CompileRequest for sandbox::CompileRequest
(main.rs); each Except.bind writes out one application of the Rust ?
operator. -/
def sandboxCompileRequestTryFrom (me : CompileRequest) :
    Except Error SandboxCompileRequest :=
  Except.bind (parse_target me.target) fun target =>
  Except.bind (parseOptField parse_assembly_flavor me.assembly_flavor)
    fun assembly_flavor =>
  Except.bind (parseOptField parse_demangle_assembly me.demangle_assembly)
    fun demangled =>
  Except.bind (parseOptField parse_process_assembly me.process_assembly)
    fun process_assembly =>
  Except.bind (parse_channel me.channel) fun channel =>
  Except.bind (parse_mode me.mode) fun mode =>
  Except.bind (parse_edition me.edition) fun edition =>
  Except.bind (parse_crate_type me.crate_type) fun crate_type =>
    .ok ⟨mergeAssemblyTarget target assembly_flavor demangled process_assembly,
         channel, mode, edition, crate_type, me.tests, me.backtrace, me.code⟩

/-- Wire struct EvaluateRequest (main.rs), the legacy evaluate.json body. -/
structure EvaluateRequest where
  version : String
  optimize : String
  code : String
deriving DecidableEq, Repr

/-- impl TryFrom of EvaluateRequest for sandbox::ExecuteRequest (main.rs):
the legacy compatibility path. -/
def sandboxExecuteRequestOfEvaluate (me : EvaluateRequest) :
    Except Error SandboxExecuteRequest :=
  match parse_channel me.version with
  | .error e => .error e
  | .ok channel =>
      .ok ⟨channel, if me.optimize ≠ "0" then .release else .debug,
           none, .binary, false, false, me.code⟩

/-- sandbox::ExecuteResponse as consumed in main.rs. -/
structure SandboxExecuteResponse where
  success : Bool
  stdout : String
  stderr : String
deriving DecidableEq, Repr

/-- Wire struct EvaluateResponse (main.rs). -/
structure EvaluateResponse where
  result : String
  error : Option String
deriving DecidableEq, Repr

/-- impl From of sandbox::ExecuteResponse for EvaluateResponse (main.rs). -/
def evaluateResponseFrom (me : SandboxExecuteResponse) : EvaluateResponse :=
  if me.success then
    ⟨me.stdout, none⟩
  else
    let result := me.stderr ++ me.stdout
    ⟨result, some result⟩

/-! ### The metadata memoization cache (SandboxCacheOne in main.rs)

The Instant clock is modelled as a Nat of elapsed seconds; the mutex-held
Option cell is modelled by explicit state passing (the functions return
the value produced together with the new cell contents). The populator
closure is modelled by the sandbox::Result value it would produce when
called; sandbox::Error is modelled by its display string. -/

/-- SANDBOX_CACHE_TIME_TO_LIVE_IN_SECONDS = ONE_HOUR_IN_SECONDS (main.rs). -/
def SANDBOX_CACHE_TIME_TO_LIVE_IN_SECONDS : Nat := 60 * 60

/-- struct SandboxCacheInfo (main.rs): a value plus its creation time. -/
structure SandboxCacheInfo (T : Type) where
  value : T
  time : Nat
deriving DecidableEq, Repr

/-- SandboxCacheOne::populate (main.rs): run the populator; on success
store a fresh entry stamped now and return the value; on failure return
the sandbox error and leave the cell exactly as it was. -/
def SandboxCacheOne.populate {T : Type} (cache : Option (SandboxCacheInfo T))
    (populator : Except String T) (now : Nat) :
    Except Error T × Option (SandboxCacheInfo T) :=
  match populator with
  | .error err => (.error (.sandbox err), cache)
  | .ok value => (.ok value, some ⟨value, now⟩)

/-- SandboxCacheOne::clone_or_populate (main.rs): return the cached value
if the entry is younger than the TTL, otherwise (re)populate. -/
def SandboxCacheOne.clone_or_populate {T : Type}
    (cache : Option (SandboxCacheInfo T)) (populator : Except String T)
    (now : Nat) : Except Error T × Option (SandboxCacheInfo T) :=
  match cache with
  | some cached =>
      if now - cached.time > SANDBOX_CACHE_TIME_TO_LIVE_IN_SECONDS then
        SandboxCacheOne.populate (some cached) populator now
      else
        (.ok cached.value, some cached)
  | none => SandboxCacheOne.populate none populator now

/-! ### The precompressed asset resolver (tower_web_server.rs)

A path is modelled by the stem and optional extension of its final
component, matching the Rust Path::file_stem / Path::extension view used
by the gz_path computation. The filesystem is a partial map from paths to
what can be learned about an opened file: whether File::metadata (fstat)
succeeds, the optional modification time it carries, and the contents.
mime_guess::guess_mime_type is passed in as a function parameter. -/

/-- A file path: stem plus optional extension of the final component. -/
structure AssetPath where
  stem : String
  ext : Option String
deriving DecidableEq, Repr

/-- An openable file: metadataAvailable models whether File::metadata
succeeds, mtime the optional metadata.modified() value (seconds), content
the file body. -/
structure FileInfo where
  metadataAvailable : Bool
  mtime : Option Nat
  content : String
deriving DecidableEq, Repr

/-- The filesystem: File::open succeeds exactly on the paths mapped to
some file. -/
abbrev FileSystem : Type := AssetPath → Option FileInfo

/-- The gz_path computation in PrecompressedAssets::file: take the
extension (empty when absent), push ".gz", and install the result with
with_extension — so the new extension is the old one with ".gz"
appended. -/
def gz_path (p : AssetPath) : AssetPath :=
  ⟨p.stem, some ((p.ext.getD "") ++ ".gz")⟩

/-- File::open(gz_path).or_else(File::open(requested_path)) with the
gzipped flag: try the gzip sibling first, then the original. -/
def openAsset (fs : FileSystem) (requested : AssetPath) :
    Option (FileInfo × Bool) :=
  match fs (gz_path requested) with
  | some f => some (f, true)
  | none =>
      match fs requested with
      | some f => some (f, false)
      | none => none

/-- An HTTP response from the asset resolver. -/
structure AssetResponse where
  status : Nat
  contentType : Option String
  contentEncoding : Option String
  lastModified : Option Nat
  body : String
deriving DecidableEq, Repr

/-- A response with the given status, an empty body and no headers. -/
def emptyResponse (status : Nat) : AssetResponse :=
  ⟨status, none, none, none, ""⟩

/-- PrecompressedAssets::file (tower_web_server.rs): open the gzip sibling
or the original; on either open failing and on a metadata failure the
final or_else answers 404; with metadata in hand, answer 304 when the
client date is at least the server date; otherwise answer 200 with the
content type guessed from the original relative path, Content-Encoding
gzip exactly when the gzip sibling was opened, and Last-Modified when a
modification time was obtainable. -/
def PrecompressedAssets.file (fs : FileSystem) (guess : AssetPath → String)
    (relative_path : AssetPath) (if_modified_since : Option Nat) :
    AssetResponse :=
  let ct := guess relative_path
  match openAsset fs relative_path with
  | none => emptyResponse 404
  | some (f, gzipped) =>
      if f.metadataAvailable then
        let last_modified := f.mtime
        let notModified :=
          match if_modified_since, last_modified with
          | some client, some server => decide (server ≤ client)
          | _, _ => false
        if notModified then
          emptyResponse 304
        else
          ⟨200, some ct, if gzipped then some "gzip" else none,
           last_modified, f.content⟩
      else
        emptyResponse 404

/-- The modification time the server can obtain for a request path: that
of the file which would be opened, provided its metadata is readable. -/
def serverModificationTime (fs : FileSystem) (relative_path : AssetPath) :
    Option Nat :=
  match openAsset fs relative_path with
  | some (f, _) => if f.metadataAvailable then f.mtime else none
  | none => none

/-! ### The iron response serializer (iron_web_server.rs)

serde_json::ser::to_string is an external collaborator and is passed in
as a fallible function parameter, once for the success payload and once
for the ErrorJson body; serde_json::Error is modelled by its display
string. -/

/-- struct ErrorJson (iron_web_server.rs). -/
structure ErrorJson where
  error : String
deriving DecidableEq, Repr

/-- const FATAL_ERROR_JSON (iron_web_server.rs). -/
def FATAL_ERROR_JSON : String :=
  "\x7b\"error\": \"Multiple cascading errors occurred, abandon all hope\"\x7d"

/-- An iron response as built by serialize_to_response: status, the json
content type, and the body string. -/
structure IronResponse where
  status : Nat
  contentType : String
  body : String
deriving DecidableEq, Repr

/-- fn serialize_to_response (iron_web_server.rs): serialize a success to
a 200 json response; push any error (including a failed success
serialization) through ErrorJson into a 500 response; if even the
ErrorJson fails to serialize, answer 500 with FATAL_ERROR_JSON. -/
def serialize_to_response {Resp : Type} (ser : Resp → Except String String)
    (serErrJson : ErrorJson → Except String String)
    (response : Except Error Resp) : IronResponse :=
  let response : Except Error String := response.bind fun resp =>
    match ser resp with
    | .ok s => .ok s
    | .error e => .error (Error.serialization e)
  match response with
  | .ok body => ⟨200, "application/json", body⟩
  | .error err =>
      let errJson : ErrorJson := ⟨errorDisplay err⟩
      match serErrJson errJson with
      | .ok error_str => ⟨500, "application/json", error_str⟩
      | .error _ => ⟨500, "application/json", FATAL_ERROR_JSON⟩

deriving instance DecidableEq for Except

/-! ## Helper lemmas -/

/-- parse_target only ever produces the default Assembly parameters:
the sole string mapped to Assembly is "asm", with (Att, Demangle, Filter). -/
theorem parse_target_assembly_default {s : String} {f : AssemblyFlavor}
    {d : DemangleAssembly} {p : ProcessAssembly}
    (h : parse_target s = .ok (.assembly f d p)) :
    f = .att ∧ d = .demangle ∧ p = .filter := by
  unfold parse_target at h
  split at h <;> simp_all

/-- parseOptField yields ok none exactly on an absent field. -/
theorem parseOptField_ok_none {α : Type} {p : String → Except Error α}
    {o : Option String} (h : parseOptField p o = .ok none) : o = none := by
  cases o with
  | none => rfl
  | some s =>
      unfold parseOptField at h
      cases hp : p s <;> simp [hp, Except.map] at h

/-- parseOptField yields ok (some a) exactly on a present field that
parses to a. -/
theorem parseOptField_ok_some {α : Type} {p : String → Except Error α}
    {o : Option String} {a : α} (h : parseOptField p o = .ok (some a)) :
    ∃ s, o = some s ∧ p s = .ok a := by
  cases o with
  | none => simp [parseOptField] at h
  | some s =>
      unfold parseOptField at h
      cases hp : p s <;> simp [hp, Except.map] at h
      exact ⟨s, rfl, by rw [hp, h]⟩

/-- Unfolding openAsset: which file was opened and with which gzipped
flag. -/
theorem openAsset_cases {fs : FileSystem} {p : AssetPath} {f : FileInfo}
    {g : Bool} (h : openAsset fs p = some (f, g)) :
    (g = true ∧ fs (gz_path p) = some f) ∨
    (g = false ∧ fs (gz_path p) = none ∧ fs p = some f) := by
  unfold openAsset at h
  cases hgz : fs (gz_path p) with
  | some fgz => rw [hgz] at h; simp_all
  | none =>
      rw [hgz] at h
      cases horig : fs p <;> rw [horig] at h <;> simp_all

/-- The gzip sibling, when present, is the file opened. -/
theorem openAsset_gz {fs : FileSystem} {p : AssetPath} {f : FileInfo}
    (h : fs (gz_path p) = some f) : openAsset fs p = some (f, true) := by
  unfold openAsset
  rw [h]

/-- Inversion of one ? step: a successful bind comes from a successful
scrutinee. -/
theorem except_bind_ok {α β : Type} {x : Except Error α}
    {f : α → Except Error β} {r : β} (h : Except.bind x f = .ok r) :
    ∃ a, x = .ok a ∧ f a = .ok r := by
  cases x with
  | error e => simp [Except.bind] at h
  | ok a => exact ⟨a, rfl, h⟩

/-- The merge is all-or-nothing: a missing flavor leaves the base target. -/
theorem mergeAssemblyTarget_no_flavor (t : CompileTarget)
    (dm : Option DemangleAssembly) (pa : Option ProcessAssembly) :
    mergeAssemblyTarget t none dm pa = t := by
  cases t <;> cases dm <;> cases pa <;> rfl

/-- The merge is all-or-nothing: a missing demangle option leaves the
base target. -/
theorem mergeAssemblyTarget_no_demangle (t : CompileTarget)
    (af : Option AssemblyFlavor) (pa : Option ProcessAssembly) :
    mergeAssemblyTarget t af none pa = t := by
  cases t <;> cases af <;> cases pa <;> rfl

/-- The merge is all-or-nothing: a missing process option leaves the base
target. -/
theorem mergeAssemblyTarget_no_process (t : CompileTarget)
    (af : Option AssemblyFlavor) (dm : Option DemangleAssembly) :
    mergeAssemblyTarget t af dm none = t := by
  cases t <;> cases af <;> cases dm <;> rfl

/-! ## Claim theorems -/

/-- Claim C9: parse_edition returns None exactly on the empty string,
returns the matching edition for "2015" and "2018", and fails on any
other non-empty string with an edition validation error carrying that
exact string — it never silently defaults. -/
theorem claim_C9_parse_edition (s : String) :
    (parse_edition s = .ok none ↔ s = "") ∧
    parse_edition "2015" = .ok (some .rust2015) ∧
    parse_edition "2018" = .ok (some .rust2018) ∧
    (s ≠ "" → s ≠ "2015" → s ≠ "2018" →
      parse_edition s = .error (.invalidEdition s)) := by
  refine ⟨⟨fun h => ?_, fun h => by subst h; rfl⟩, rfl, rfl,
    fun h0 h1 h2 => ?_⟩
  · unfold parse_edition at h
    split at h <;> simp_all
  · unfold parse_edition
    split <;> simp_all

/-- Witness for C9 at the concrete unrecognized string "2021". -/
theorem claim_C9_parse_edition_witness :
    parse_edition "2021" = .error (.invalidEdition "2021") :=
  (claim_C9_parse_edition "2021").2.2.2 (by decide) (by decide) (by decide)

/-- Claim C8: the legacy evaluate request validates to an Execute command
with channel parsed from version, Debug exactly for the literal optimize
string "0" and Release for every other string, no edition, a binary
crate, tests and backtrace off, and the code passed through. -/
theorem claim_C8_legacy_evaluate (me : EvaluateRequest)
    (r : SandboxExecuteRequest)
    (hok : sandboxExecuteRequestOfEvaluate me = .ok r) :
    parse_channel me.version = .ok r.channel ∧
    r.mode = (if me.optimize = "0" then Mode.debug else Mode.release) ∧
    r.edition = none ∧ r.crate_type = .binary ∧ r.tests = false ∧
    r.backtrace = false ∧ r.code = me.code := by
  unfold sandboxExecuteRequestOfEvaluate at hok
  cases hch : parse_channel me.version with
  | error e => rw [hch] at hok; exact absurd hok (by simp)
  | ok ch =>
      rw [hch] at hok
      injection hok with h
      subst h
      refine ⟨rfl, ?_, rfl, rfl, rfl, rfl, rfl⟩
      by_cases h : me.optimize = "0" <;> simp [h]

/-- A concrete legacy evaluate request. -/
def evaluateRequestExample : EvaluateRequest := ⟨"stable", "2", "code"⟩

/-- The Execute command the concrete legacy request validates to. -/
def executeRequestExample : SandboxExecuteRequest :=
  ⟨.stable, .release, none, .binary, false, false, "code"⟩

/-- Witness for C8 at a concrete request with optimize = "2". -/
theorem claim_C8_legacy_evaluate_witness :
    parse_channel evaluateRequestExample.version =
      .ok executeRequestExample.channel ∧
    executeRequestExample.mode =
      (if evaluateRequestExample.optimize = "0" then Mode.debug
        else Mode.release) ∧
    executeRequestExample.edition = none ∧
    executeRequestExample.crate_type = .binary ∧
    executeRequestExample.tests = false ∧
    executeRequestExample.backtrace = false ∧
    executeRequestExample.code = evaluateRequestExample.code :=
  claim_C8_legacy_evaluate evaluateRequestExample executeRequestExample
    (by decide)

/-- Claim C10: mapping a sandbox execute response to the legacy
EvaluateResponse puts stdout in result with no error on success, and on
failure puts stderr concatenated with stdout identically in both the
result and the error fields. -/
theorem claim_C10_evaluate_response (me : SandboxExecuteResponse) :
    (me.success = true → evaluateResponseFrom me = ⟨me.stdout, none⟩) ∧
    (me.success = false →
      evaluateResponseFrom me =
        ⟨me.stderr ++ me.stdout, some (me.stderr ++ me.stdout)⟩) := by
  constructor <;> intro h <;> simp [evaluateResponseFrom, h]

/-- Witness for C10 at a concrete failed response. -/
theorem claim_C10_evaluate_response_witness :
    evaluateResponseFrom ⟨false, "out", "err"⟩ =
      ⟨"err" ++ "out", some ("err" ++ "out")⟩ :=
  (claim_C10_evaluate_response ⟨false, "out", "err"⟩).2 rfl

/-- Claim C4: a cached entry no older than the one-hour TTL is returned
as-is, for every populator (the populator cannot influence the result, so
it is not consulted); an empty slot, or one whose entry is older than the
TTL, runs the populator and on success stores a fresh entry stamped with
the current time and returns its value. -/
theorem claim_C4_cache_ttl (T : Type) (cache : Option (SandboxCacheInfo T))
    (populator : Except String T) (now : Nat) :
    (∀ entry, cache = some entry →
      now - entry.time ≤ SANDBOX_CACHE_TIME_TO_LIVE_IN_SECONDS →
      SandboxCacheOne.clone_or_populate cache populator now =
        (.ok entry.value, cache)) ∧
    (∀ v, populator = .ok v →
      (cache = none ∨ ∃ entry, cache = some entry ∧
        now - entry.time > SANDBOX_CACHE_TIME_TO_LIVE_IN_SECONDS) →
      SandboxCacheOne.clone_or_populate cache populator now =
        (.ok v, some ⟨v, now⟩)) := by
  constructor
  · intro entry hc hfresh
    subst hc
    simp only [SandboxCacheOne.clone_or_populate]
    rw [if_neg (by omega)]
  · intro v hpop hcase
    subst hpop
    rcases hcase with hnone | ⟨entry, hc, hstale⟩
    · subst hnone; rfl
    · subst hc
      simp only [SandboxCacheOne.clone_or_populate]
      rw [if_pos hstale]
      rfl

/-- Witness for C4: a fresh hit ignores a failing populator; a stale
entry is replaced on a successful repopulation. -/
theorem claim_C4_cache_ttl_witness :
    SandboxCacheOne.clone_or_populate (some ⟨7, 0⟩)
      (Except.error "boom" : Except String Nat) 10 =
      (.ok 7, some ⟨7, 0⟩) ∧
    SandboxCacheOne.clone_or_populate (some ⟨7, 0⟩)
      (Except.ok 9 : Except String Nat) 4000 =
      (.ok 9, some ⟨9, 4000⟩) := by
  constructor
  · exact (claim_C4_cache_ttl Nat (some ⟨7, 0⟩) (.error "boom") 10).1
      ⟨7, 0⟩ rfl (by decide)
  · exact (claim_C4_cache_ttl Nat (some ⟨7, 0⟩) (.ok 9) 4000).2
      9 rfl (.inr ⟨⟨7, 0⟩, rfl, by decide⟩)

/-- Claim C5: a failing populator returns the failure to the caller and
leaves the stored entry exactly as it was — populate never touches the
cell on failure, an empty slot stays empty, a stale entry stays put, and
the next call on an empty slot runs the populator again. -/
theorem claim_C5_populate_failure (T : Type)
    (cache : Option (SandboxCacheInfo T)) (err : String) (now : Nat) :
    SandboxCacheOne.populate cache (.error err) now =
      (.error (.sandbox err), cache) ∧
    SandboxCacheOne.clone_or_populate (none : Option (SandboxCacheInfo T))
      (.error err) now = (.error (.sandbox err), none) ∧
    (∀ v now2,
      SandboxCacheOne.clone_or_populate (none : Option (SandboxCacheInfo T))
        (.ok v) now2 = (.ok v, some ⟨v, now2⟩)) ∧
    (∀ entry, cache = some entry →
      now - entry.time > SANDBOX_CACHE_TIME_TO_LIVE_IN_SECONDS →
      SandboxCacheOne.clone_or_populate cache (.error err) now =
        (.error (.sandbox err), cache)) := by
  refine ⟨rfl, rfl, fun v now2 => rfl, fun entry hc hstale => ?_⟩
  subst hc
  simp only [SandboxCacheOne.clone_or_populate]
  rw [if_pos hstale]
  rfl

/-- Witness for C5 at a concrete stale entry and failing populator. -/
theorem claim_C5_populate_failure_witness :
    SandboxCacheOne.clone_or_populate
      (some (⟨7, 0⟩ : SandboxCacheInfo Nat)) (.error "boom") 9999 =
      (.error (.sandbox "boom"), some ⟨7, 0⟩) :=
  (claim_C5_populate_failure Nat (some ⟨7, 0⟩) "boom" 9999).2.2.2
    ⟨7, 0⟩ rfl (by decide)

/-- Claim C1: for a compile request whose base target parses to Assembly
(necessarily the default Att, Demangle, Filter), the validated command
carries the Assembly target built from the three parsed wire fields
exactly when all three are present (a present field that fails to parse
aborts validation, so on success present means parsed); in every other
case the validated command keeps the target of parse_target alone — the
merge is all-or-nothing, never field-by-field. -/
theorem claim_C1_assembly_merge (me : CompileRequest)
    (r : SandboxCompileRequest) (f0 : AssemblyFlavor)
    (d0 : DemangleAssembly) (p0 : ProcessAssembly)
    (hpt : parse_target me.target = .ok (.assembly f0 d0 p0))
    (hok : sandboxCompileRequestTryFrom me = .ok r) :
    (f0 = .att ∧ d0 = .demangle ∧ p0 = .filter) ∧
    ((∃ sf sd sp f d p,
        me.assembly_flavor = some sf ∧ me.demangle_assembly = some sd ∧
        me.process_assembly = some sp ∧
        parse_assembly_flavor sf = .ok f ∧
        parse_demangle_assembly sd = .ok d ∧
        parse_process_assembly sp = .ok p ∧
        r.target = .assembly f d p) ∨
      ((me.assembly_flavor = none ∨ me.demangle_assembly = none ∨
        me.process_assembly = none) ∧
        r.target = .assembly f0 d0 p0)) := by
  refine ⟨parse_target_assembly_default hpt, ?_⟩
  unfold sandboxCompileRequestTryFrom at hok
  obtain ⟨t, hpt2, hok⟩ := except_bind_ok hok
  rw [hpt] at hpt2
  injection hpt2 with hpt2
  subst hpt2
  obtain ⟨af, haf, hok⟩ := except_bind_ok hok
  obtain ⟨dm, hdm, hok⟩ := except_bind_ok hok
  obtain ⟨pa, hpa, hok⟩ := except_bind_ok hok
  obtain ⟨ch, _, hok⟩ := except_bind_ok hok
  obtain ⟨mo, _, hok⟩ := except_bind_ok hok
  obtain ⟨ed, _, hok⟩ := except_bind_ok hok
  obtain ⟨ct, _, hok⟩ := except_bind_ok hok
  injection hok with hok
  subst hok
  rcases af with _ | f
  · exact .inr ⟨.inl (parseOptField_ok_none haf),
      by simp [mergeAssemblyTarget_no_flavor]⟩
  · rcases dm with _ | d
    · exact .inr ⟨.inr (.inl (parseOptField_ok_none hdm)),
        by simp [mergeAssemblyTarget_no_demangle]⟩
    · rcases pa with _ | p
      · exact .inr ⟨.inr (.inr (parseOptField_ok_none hpa)),
          by simp [mergeAssemblyTarget_no_process]⟩
      · obtain ⟨sf, hsf, hsf2⟩ := parseOptField_ok_some haf
        obtain ⟨sd, hsd, hsd2⟩ := parseOptField_ok_some hdm
        obtain ⟨sp, hsp, hsp2⟩ := parseOptField_ok_some hpa
        exact .inl ⟨sf, sd, sp, f, d, p, hsf, hsd, hsp, hsf2, hsd2, hsp2, rfl⟩

/-- A concrete compile request with all three assembly sub-fields. -/
def compileRequestExample : CompileRequest :=
  ⟨"asm", some "intel", some "demangle", some "raw", "stable", "debug", "",
   "bin", false, false, "code"⟩

/-- The validated command the concrete compile request produces. -/
def compileResultExample : SandboxCompileRequest :=
  ⟨.assembly .intel .demangle .raw, .stable, .debug, none, .binary,
   false, false, "code"⟩

/-- Witness for C1 at the concrete request: all three fields present and
valid, so the target parameters are replaced by the parsed values. -/
theorem claim_C1_assembly_merge_witness :
    (AssemblyFlavor.att = AssemblyFlavor.att ∧
      DemangleAssembly.demangle = DemangleAssembly.demangle ∧
      ProcessAssembly.filter = ProcessAssembly.filter) ∧
    ((∃ sf sd sp f d p,
        compileRequestExample.assembly_flavor = some sf ∧
        compileRequestExample.demangle_assembly = some sd ∧
        compileRequestExample.process_assembly = some sp ∧
        parse_assembly_flavor sf = .ok f ∧
        parse_demangle_assembly sd = .ok d ∧
        parse_process_assembly sp = .ok p ∧
        compileResultExample.target = .assembly f d p) ∨
      ((compileRequestExample.assembly_flavor = none ∨
        compileRequestExample.demangle_assembly = none ∨
        compileRequestExample.process_assembly = none) ∧
        compileResultExample.target = .assembly .att .demangle .filter)) :=
  claim_C1_assembly_merge compileRequestExample compileResultExample
    .att .demangle .filter (by decide) (by decide)

/-- Claim C3: a handler success whose body serializes is a 200 json
response; every error — validation errors included — becomes a 500
response whose body is the serialized ErrorJson of the error display; if
that serialization itself fails, the body is the fixed FATAL_ERROR_JSON
literal, never a propagated second failure. -/
theorem claim_C3_error_propagation (Resp : Type)
    (ser : Resp → Except String String)
    (serErrJson : ErrorJson → Except String String)
    (response : Except Error Resp) :
    (∀ r s, response = .ok r → ser r = .ok s →
      serialize_to_response ser serErrJson response =
        ⟨200, "application/json", s⟩) ∧
    (∀ e, response = .error e →
      (serialize_to_response ser serErrJson response).status = 500 ∧
      ((∃ s, serErrJson ⟨errorDisplay e⟩ = .ok s ∧
          (serialize_to_response ser serErrJson response).body = s) ∨
        ((∃ e2, serErrJson ⟨errorDisplay e⟩ = .error e2) ∧
          (serialize_to_response ser serErrJson response).body =
            FATAL_ERROR_JSON))) := by
  constructor
  · intro r s hr hs
    subst hr
    have hb : serialize_to_response ser serErrJson
        (.ok r : Except Error Resp) =
        match ser r with
        | .ok s => ⟨200, "application/json", s⟩
        | .error e =>
            match serErrJson ⟨errorDisplay (Error.serialization e)⟩ with
            | .ok error_str => ⟨500, "application/json", error_str⟩
            | .error _ => ⟨500, "application/json", FATAL_ERROR_JSON⟩ := by
      unfold serialize_to_response
      simp only [Except.bind]
      cases ser r <;> rfl
    rw [hb, hs]
  · intro e he
    subst he
    have hb : serialize_to_response ser serErrJson
        (.error e : Except Error Resp) =
        match serErrJson ⟨errorDisplay e⟩ with
        | .ok error_str => ⟨500, "application/json", error_str⟩
        | .error _ => ⟨500, "application/json", FATAL_ERROR_JSON⟩ := by
      unfold serialize_to_response
      rfl
    cases hj : serErrJson ⟨errorDisplay e⟩ with
    | ok s =>
        rw [hj] at hb
        exact ⟨by rw [hb], .inl ⟨s, rfl, by rw [hb]⟩⟩
    | error e2 =>
        rw [hj] at hb
        exact ⟨by rw [hb], .inr ⟨⟨e2, rfl⟩, by rw [hb]⟩⟩

/-- Witness for C3: a concrete validation error is answered 500. -/
theorem claim_C3_error_propagation_witness :
    (serialize_to_response (fun n : Nat => .ok (toString n))
      (fun ej => .ok ej.error)
      (.error (.invalidEdition "2019"))).status = 500 :=
  ((claim_C3_error_propagation Nat (fun n => .ok (toString n))
      (fun ej => .ok ej.error) (.error (.invalidEdition "2019"))).2
    (.invalidEdition "2019") rfl).1

/-- A filesystem on which the gzip sibling of app.js opens but its
metadata (fstat) cannot be read. -/
def badMetadataFs : FileSystem := fun q =>
  if q = gz_path ⟨"app", some "js"⟩ then some ⟨false, none, ""⟩ else none

/-- Counterexample to C2 as stated: on badMetadataFs the gzip sibling of
app.js opens successfully, yet the response is 404, not 200 or 304 — the
catch-all or_else in the source also turns a metadata failure of an
opened file into a 404. -/
theorem claim_C2_counterexample :
    (openAsset badMetadataFs ⟨"app", some "js"⟩).isSome = true ∧
    (PrecompressedAssets.file badMetadataFs
      (fun _ => "application/javascript") ⟨"app", some "js"⟩ none).status
      = 404 ∧
    ¬ ((PrecompressedAssets.file badMetadataFs
        (fun _ => "application/javascript") ⟨"app", some "js"⟩ none).status
        = 200 ∨
      (PrecompressedAssets.file badMetadataFs
        (fun _ => "application/javascript") ⟨"app", some "js"⟩ none).status
        = 304) := by
  refine ⟨?_, ?_, ?_⟩ <;> decide

/-- Claim C2 as amended: the resolver answers 404 with an empty body
exactly when both opens fail or when the opened file's metadata cannot be
read; whenever a file opens and its metadata is readable the response is
200 or 304; and a readable metadata that carries no modification time is
tolerated — the response is a 200 that merely omits Last-Modified. -/
theorem claim_C2_amended_resolution (fs : FileSystem)
    (guess : AssetPath → String) (p : AssetPath) (ims : Option Nat) :
    (PrecompressedAssets.file fs guess p ims = emptyResponse 404 ↔
      (openAsset fs p = none ∨
        ∃ f g, openAsset fs p = some (f, g) ∧
          f.metadataAvailable = false)) ∧
    (∀ f g, openAsset fs p = some (f, g) → f.metadataAvailable = true →
      (PrecompressedAssets.file fs guess p ims).status = 200 ∨
      (PrecompressedAssets.file fs guess p ims).status = 304) ∧
    (∀ f g, openAsset fs p = some (f, g) → f.metadataAvailable = true →
      f.mtime = none →
      (PrecompressedAssets.file fs guess p ims).status = 200 ∧
      (PrecompressedAssets.file fs guess p ims).lastModified = none) := by
  refine ⟨⟨fun h => ?_, fun h => ?_⟩, fun f g ho hmd => ?_, fun f g ho hmd hm => ?_⟩
  · rcases ho : openAsset fs p with _ | ⟨f, g⟩
    · exact .inl rfl
    · cases hmd : f.metadataAvailable
      · exact .inr ⟨f, g, rfl, hmd⟩
      · rcases him : ims with _ | c
        · simp [PrecompressedAssets.file, ho, hmd, him, emptyResponse] at h
        · rcases hm : f.mtime with _ | s
          · simp [PrecompressedAssets.file, ho, hmd, him, hm,
              emptyResponse] at h
          · by_cases hle : s ≤ c <;>
              simp [PrecompressedAssets.file, ho, hmd, him, hm, hle,
                emptyResponse] at h
  · rcases h with h | ⟨f, g, ho, hmd⟩
    · simp [PrecompressedAssets.file, h]
    · simp [PrecompressedAssets.file, ho, hmd]
  · cases hm : f.mtime with
    | none =>
        exact .inl (by simp [PrecompressedAssets.file, ho, hmd, hm])
    | some s =>
        rcases him : ims with _ | c
        · exact .inl (by simp [PrecompressedAssets.file, ho, hmd, him])
        · by_cases hle : s ≤ c
          · exact .inr (by simp [PrecompressedAssets.file, ho, hmd, him,
              hm, hle, emptyResponse])
          · exact .inl (by simp [PrecompressedAssets.file, ho, hmd, him,
              hm, hle])
  · rcases him : ims with _ | c
    · constructor <;> simp [PrecompressedAssets.file, ho, hmd, him, hm]
    · constructor <;> simp [PrecompressedAssets.file, ho, hmd, him, hm]

/-- A filesystem holding only the plain app.js, with readable metadata. -/
def goodFs : FileSystem := fun q =>
  if q = ⟨"app", some "js"⟩ then some ⟨true, some 5, "hello"⟩ else none

/-- Witness for the amended C2 on a concrete filesystem where app.js
opens with readable metadata. -/
theorem claim_C2_amended_resolution_witness :
    (PrecompressedAssets.file goodFs (fun _ => "text/html")
      ⟨"app", some "js"⟩ none).status = 200 ∨
    (PrecompressedAssets.file goodFs (fun _ => "text/html")
      ⟨"app", some "js"⟩ none).status = 304 :=
  (claim_C2_amended_resolution goodFs (fun _ => "text/html")
      ⟨"app", some "js"⟩ none).2.1
    ⟨true, some 5, "hello"⟩ false (by decide) rfl

/-- Claim C6: the resolver answers 304 — with an empty body and neither
Content-Type nor Content-Encoding nor Last-Modified headers, which is
what emptyResponse 304 is — exactly when the caller supplied
If-Modified-Since, a server-side modification time is obtainable, and the
client date is at least the server date. -/
theorem claim_C6_not_modified (fs : FileSystem)
    (guess : AssetPath → String) (p : AssetPath) (ims : Option Nat) :
    PrecompressedAssets.file fs guess p ims = emptyResponse 304 ↔
      ∃ c s, ims = some c ∧ serverModificationTime fs p = some s ∧
        s ≤ c := by
  constructor
  · intro h
    rcases ho : openAsset fs p with _ | ⟨f, g⟩
    · simp [PrecompressedAssets.file, ho, emptyResponse] at h
    · cases hmd : f.metadataAvailable
      · simp [PrecompressedAssets.file, ho, hmd, emptyResponse] at h
      · rcases him : ims with _ | c
        · simp [PrecompressedAssets.file, ho, hmd, him, emptyResponse] at h
        · rcases hm : f.mtime with _ | s
          · simp [PrecompressedAssets.file, ho, hmd, him, hm,
              emptyResponse] at h
          · by_cases hle : s ≤ c
            · exact ⟨c, s, rfl,
                by simp [serverModificationTime, ho, hmd, hm], hle⟩
            · simp [PrecompressedAssets.file, ho, hmd, him, hm, hle,
                emptyResponse] at h
  · rintro ⟨c, s, him, hsrv, hle⟩
    subst him
    rcases ho : openAsset fs p with _ | ⟨f, g⟩
    · simp [serverModificationTime, ho] at hsrv
    · cases hmd : f.metadataAvailable
      · simp [serverModificationTime, ho, hmd] at hsrv
      · have hm : f.mtime = some s := by
          simpa [serverModificationTime, ho, hmd] using hsrv
        simp [PrecompressedAssets.file, ho, hmd, hm, hle, emptyResponse]

/-- Claim C7: on a 200 answer, the gzip path is the original path with
".gz" appended to its extension and is probed first, Content-Encoding
gzip is present exactly when the gzip sibling exists (and was therefore
the file opened), the body is that sibling's contents when it exists, and
Content-Type is guessed from the original relative path in either case. -/
theorem claim_C7_gzip_selection (fs : FileSystem)
    (guess : AssetPath → String) (p : AssetPath) (ims : Option Nat)
    (h200 : (PrecompressedAssets.file fs guess p ims).status = 200) :
    gz_path p = ⟨p.stem, some ((p.ext.getD "") ++ ".gz")⟩ ∧
    (PrecompressedAssets.file fs guess p ims).contentType =
      some (guess p) ∧
    ((PrecompressedAssets.file fs guess p ims).contentEncoding =
        some "gzip" ↔ (fs (gz_path p)).isSome = true) ∧
    (∀ f, fs (gz_path p) = some f →
      (PrecompressedAssets.file fs guess p ims).body = f.content) := by
  have key : ∃ f g, openAsset fs p = some (f, g) ∧
      PrecompressedAssets.file fs guess p ims =
        ⟨200, some (guess p), if g then some "gzip" else none,
         f.mtime, f.content⟩ := by
    rcases ho : openAsset fs p with _ | ⟨f, g⟩
    · simp [PrecompressedAssets.file, ho, emptyResponse] at h200
    · cases hmd : f.metadataAvailable
      · simp [PrecompressedAssets.file, ho, hmd, emptyResponse] at h200
      · rcases him : ims with _ | c
        · exact ⟨f, g, rfl, by simp [PrecompressedAssets.file, ho, hmd, him]⟩
        · rcases hm : f.mtime with _ | s
          · exact ⟨f, g, rfl,
              by simp [PrecompressedAssets.file, ho, hmd, him, hm]⟩
          · by_cases hle : s ≤ c
            · simp [PrecompressedAssets.file, ho, hmd, him, hm, hle,
                emptyResponse] at h200
            · exact ⟨f, g, rfl,
                by simp [PrecompressedAssets.file, ho, hmd, him, hm, hle]⟩
  obtain ⟨f, g, ho, heq⟩ := key
  refine ⟨rfl, by rw [heq], ?_, ?_⟩
  · rw [heq]
    cases g
    · simp only [Bool.false_eq_true, if_false]
      rcases openAsset_cases ho with ⟨hg, _⟩ | ⟨_, hgz, _⟩
      · exact absurd hg (by simp)
      · simp [hgz]
    · simp only [if_true]
      rcases openAsset_cases ho with ⟨_, hgz⟩ | ⟨hg, _, _⟩
      · simp [hgz]
      · exact absurd hg (by simp)
  · intro f2 hf2
    have := openAsset_gz hf2
    rw [ho] at this
    injection this with this
    injection this with h1 _
    subst h1
    rw [heq]

/-- A filesystem holding only the gzip sibling app.js.gz. -/
def gzOnlyFs : FileSystem := fun q =>
  if q = ⟨"app", some "js.gz"⟩ then some ⟨true, none, "gzbody"⟩ else none

/-- Witness for C7: on a filesystem holding only the gzip sibling, the
200 answer carries Content-Encoding gzip. -/
theorem claim_C7_gzip_selection_witness :
    (PrecompressedAssets.file gzOnlyFs (fun _ => "application/javascript")
      ⟨"app", some "js"⟩ none).contentEncoding = some "gzip" :=
  ((claim_C7_gzip_selection gzOnlyFs (fun _ => "application/javascript")
      ⟨"app", some "js"⟩ none (by decide)).2.2.1).2 (by decide)

end Playground
